import Mathlib

/-!
Verification of the Spam_Email_Detection notebook.

The notebook is a linear script: it builds a ten-row synthetic email
dataset, writes it to a CSV file, splits it into train/test sets with
`train_test_split(test_size=0.3, random_state=42)`, fits a
`TfidfVectorizer(stop_words='english', max_features=100)` on the training
emails, transforms train/test/new emails with that fitted vectorizer,
fits a `MultinomialNB` classifier, predicts, and reports metrics.

Shallow embedding choices:
* The dataset, the cell order, the split index arithmetic, tokenization,
  stop-word filtering, vocabulary fitting, count extraction, the class
  list stored by `MultinomialNB.fit` and the argmax in `predict` are
  embedded concretely.
* The random permutation drawn by `train_test_split` from
  `RandomState(42)` is a parameter `perm` constrained to be a permutation
  of `range 10`; every theorem that uses it holds for all permutations.
* The real-valued numerics (idf weights, l2 normalisation, Naive Bayes
  log-posteriors) are folded into one abstract scoring parameter
  `score : List Nat → String → ℚ`: theorems about predictions hold for
  every score function, hence for the library's floating-point one.
-/

namespace Spam

/-- One row of the notebook's DataFrame: the record type has exactly the
two fields `email` (free text) and `label` (categorical string). -/
structure EmailRecord where
  email : String
  label : String
deriving DecidableEq, Repr

/-- The synthetic dataset literal `data` from the data-creation cell,
with the `email` and `label` columns zipped into rows. -/
def data : List EmailRecord :=
  [⟨"win a free prize now click here", "spam"⟩,
   ⟨"meeting at 10am tomorrow", "ham"⟩,
   ⟨"urgent money transfer needed", "spam"⟩,
   ⟨"hello how are you today", "ham"⟩,
   ⟨"claim your lottery winnings", "spam"⟩,
   ⟨"project update for team", "ham"⟩,
   ⟨"buy cheap products online now", "spam"⟩,
   ⟨"lunch plans this afternoon", "ham"⟩,
   ⟨"exclusive offer just for you", "spam"⟩,
   ⟨"review the attached document", "ham"⟩]

/-- The DataFrame: `df = pd.DataFrame(data)`. -/
def df : List EmailRecord := data

/-- The feature column: `X = df['email']`. -/
def X : List String := df.map EmailRecord.email

/-- The label column: `y = df['label']`. -/
def y : List String := df.map EmailRecord.label

/-- The lines of the CSV file written by `df.to_csv('spam_email_data.csv',
index=False)`: a header naming the two columns followed by one line per
record, with no index column prepended (the emails contain no commas or
quotes, so no CSV escaping arises). -/
def toCsv (rows : List EmailRecord) : List String :=
  "email,label" :: rows.map (fun r => r.email ++ "," ++ r.label)

/-! ## Cell order and external effects -/

/-- The pipeline stages the notebook performs, one constructor per stage. -/
inductive Step where
  | constructData
  | splitTrainTest
  | vectorizeText
  | fitClassifier
  | predictTest
  | reportMetrics
  | predictNewEmails
deriving DecidableEq, Repr

/-- The order in which the notebook's code actually performs the stages,
read off the code cells top to bottom: the data-creation cell, then the
cell that first calls `train_test_split` and afterwards fits the
`TfidfVectorizer` on `X_train` and transforms `X_test`, then the cell
that fits `MultinomialNB` and predicts on the test set, then the metrics
cell, then the new-email prediction cell. -/
def notebookCellOrder : List Step :=
  [Step.constructData, Step.splitTrainTest, Step.vectorizeText,
   Step.fitClassifier, Step.predictTest, Step.reportMetrics,
   Step.predictNewEmails]

/-- Position of a stage in the notebook's actual execution order. -/
def stepIndex (s : Step) : Nat := notebookCellOrder.indexOf s

/-- Modelled from the spec: the linear sequence of stages the spec
states, "construct toy data → vectorize text → split train/test → fit
classifier → predict → report metrics → predict on three new strings".
Kept separate from `notebookCellOrder` so the two can be compared. -/
def specClaimedOrder : List Step :=
  [Step.constructData, Step.vectorizeText, Step.splitTrainTest,
   Step.fitClassifier, Step.predictTest, Step.reportMetrics,
   Step.predictNewEmails]

/-- Kinds of externally visible actions a cell can take. `consolePrint`
is a `print(...)` call (payload elided: nothing verified depends on the
printed text) and `showFigure` is the `plt.show()` call; both render into
the notebook itself. `fileWrite`, `networkSend` and `envSet` are the
external outputs the frame claim is about. -/
inductive Effect where
  | fileWrite (path : String) (lines : List String)
  | consolePrint
  | showFigure
  | networkSend (url : String)
  | envSet (key value : String)
deriving DecidableEq, Repr

/-- Every externally visible action of the script, in program order:
the data cell prints twice and calls `df.to_csv('spam_email_data.csv',
index=False)`; the split/vectorize cell prints the two shapes; the
training cell prints the test-set predictions; the metrics cell prints
the accuracy, a heading and the classification report and shows the
confusion-matrix heatmap; the final cell prints one line per new email.
No cell opens a socket, touches any other file, or sets an environment
variable. -/
def programEffects : List Effect :=
  [Effect.consolePrint, Effect.consolePrint,
   Effect.fileWrite "spam_email_data.csv" (toCsv df),
   Effect.consolePrint, Effect.consolePrint,
   Effect.consolePrint,
   Effect.consolePrint, Effect.consolePrint, Effect.consolePrint,
   Effect.showFigure,
   Effect.consolePrint, Effect.consolePrint, Effect.consolePrint]

/-- Whether an effect writes a file. -/
def Effect.isFileWrite : Effect → Bool
  | Effect.fileWrite _ _ => true
  | _ => false

/-- Whether an effect is a network or environment output. -/
def Effect.isNetworkOrEnv : Effect → Bool
  | Effect.networkSend _ => true
  | Effect.envSet _ _ => true
  | _ => false

/-! ## The train/test split

`train_test_split(X, y, test_size=0.3, random_state=42)` draws
`permutation = RandomState(42).permutation(10)` and returns
`test = permutation[:n_test]`, `train = permutation[n_test:n_test+n_train]`
with `n_test = ceil(0.3 * 10)` and `n_train = 10 - n_test`. The
permutation is kept as a parameter `perm`; the notebook's run uses the
particular permutation `RandomState(42)` produces. -/

/-- Number of rows of the DataFrame. -/
def n_samples : Nat := X.length

/-- The `test_size=0.3` argument, as an exact rational. -/
def test_size : ℚ := 3 / 10

/-- The test-set size `n_test = ceil(test_size * n_samples)`, sklearn's rounding rule for a
fractional `test_size`; with `test_size = 3/10` this is the natural
ceiling division `⌈3 * n_samples / 10⌉ = (3 * n_samples + 9) / 10`
(`n_test_eq_ceil` below checks the two formulas agree). -/
def n_test : Nat := (3 * n_samples + 9) / 10

/-- The train-set size `n_train = n_samples - n_test`. -/
def n_train : Nat := n_samples - n_test

/-- Test-set row indices: the first `n_test` entries of the permutation. -/
def test_indices (perm : List Nat) : List Nat := perm.take n_test

/-- Train-set row indices: the next `n_train` entries of the permutation. -/
def train_indices (perm : List Nat) : List Nat :=
  (perm.drop n_test).take n_train

/-- Select the rows of a column at the given indices. -/
def selectRows (col : List String) (idxs : List Nat) : List String :=
  idxs.map (fun i => col.getD i "")

/-- Training emails `X_train` from the split. -/
def X_train (perm : List Nat) : List String := selectRows X (train_indices perm)

/-- Test emails `X_test` from the split. -/
def X_test (perm : List Nat) : List String := selectRows X (test_indices perm)

/-- Training labels `y_train` from the split. -/
def y_train (perm : List Nat) : List String := selectRows y (train_indices perm)

/-- Test labels `y_test` from the split. -/
def y_test (perm : List Nat) : List String := selectRows y (test_indices perm)

/-! ## TfidfVectorizer

`TfidfVectorizer(stop_words='english', max_features=100)` tokenizes each
document with the default token pattern (maximal runs of at least two
word characters), drops English stop words, collects the remaining
distinct terms of the corpus as the vocabulary (alphabetically sorted;
truncated to the `max_features` most frequent terms when there are more
than `max_features` of them), and maps each document to its vector of
term counts, scaled by per-term positive idf weights and l2-normalised.
The scaling and normalisation are real-valued and are absorbed into the
abstract classifier score; the embedding keeps the exact count
structure, which determines every shape and vocabulary fact used below. -/

/-- The library's built-in English stop-word list selected by
`stop_words='english'` (the Glasgow information-retrieval list). -/
def englishStopWords : List String :=
  ["a", "about", "above", "across", "after", "afterwards", "again",
   "against", "all", "almost", "alone", "along", "already", "also",
   "although", "always", "am", "among", "amongst", "amoungst", "amount",
   "an", "and", "another", "any", "anyhow", "anyone", "anything",
   "anyway", "anywhere", "are", "around", "as", "at", "back", "be",
   "became", "because", "become", "becomes", "becoming", "been",
   "before", "beforehand", "behind", "being", "below", "beside",
   "besides", "between", "beyond", "bill", "both", "bottom", "but",
   "by", "call", "can", "cannot", "cant", "co", "con", "could",
   "couldnt", "cry", "de", "describe", "detail", "do", "done", "down",
   "due", "during", "each", "eg", "eight", "either", "eleven", "else",
   "elsewhere", "empty", "enough", "etc", "even", "ever", "every",
   "everyone", "everything", "everywhere", "except", "few", "fifteen",
   "fifty", "fill", "find", "fire", "first", "five", "for", "former",
   "formerly", "forty", "found", "four", "from", "front", "full",
   "further", "get", "give", "go", "had", "has", "hasnt", "have", "he",
   "hence", "her", "here", "hereafter", "hereby", "herein", "hereupon",
   "hers", "herself", "him", "himself", "his", "how", "however",
   "hundred", "i", "ie", "if", "in", "inc", "indeed", "interest",
   "into", "is", "it", "its", "itself", "keep", "last", "latter",
   "latterly", "least", "less", "ltd", "made", "many", "may", "me",
   "meanwhile", "might", "mill", "mine", "more", "moreover", "most",
   "mostly", "move", "much", "must", "my", "myself", "name", "namely",
   "neither", "never", "nevertheless", "next", "nine", "no", "nobody",
   "none", "noone", "nor", "not", "nothing", "now", "nowhere", "of",
   "off", "often", "on", "once", "one", "only", "onto", "or", "other",
   "others", "otherwise", "our", "ours", "ourselves", "out", "over",
   "own", "part", "per", "perhaps", "please", "put", "rather", "re",
   "same", "see", "seem", "seemed", "seeming", "seems", "serious",
   "several", "she", "should", "show", "side", "since", "sincere",
   "six", "sixty", "so", "some", "somehow", "someone", "something",
   "sometime", "sometimes", "somewhere", "still", "such", "system",
   "take", "ten", "than", "that", "the", "their", "them", "themselves",
   "then", "thence", "there", "thereafter", "thereby", "therefore",
   "therein", "thereupon", "these", "they", "thick", "thin", "third",
   "this", "those", "though", "three", "through", "throughout", "thru",
   "thus", "to", "together", "too", "top", "toward", "towards",
   "twelve", "twenty", "two", "un", "under", "until", "up", "upon",
   "us", "very", "via", "was", "we", "well", "were", "what", "whatever",
   "when", "whence", "whenever", "where", "whereafter", "whereas",
   "whereby", "wherein", "whereupon", "wherever", "whether", "which",
   "while", "whither", "who", "whoever", "whole", "whom", "whose",
   "why", "will", "with", "within", "without", "would", "yet", "you",
   "your", "yours", "yourself", "yourselves"]

/-- Split a character list at spaces into maximal space-free runs. -/
def splitChars : List Char → List (List Char)
  | [] => [[]]
  | c :: cs =>
    let r := splitChars cs
    if c = ' ' then [] :: r
    else
      match r with
      | [] => [[c]]
      | w :: ws => (c :: w) :: ws

/-- Tokenization: on these corpora (lowercase words separated by single
spaces) the default token pattern keeps exactly the space-separated runs
of length at least two. -/
def tokenize (doc : String) : List String :=
  ((splitChars doc.toList).map String.mk).filter (fun w => 2 ≤ w.length)

/-- Lexicographic comparison of strings by character code, the order
`np.unique` and the vectorizer sort by on these ASCII corpora. -/
def lexLe : List Char → List Char → Bool
  | [], _ => true
  | _ :: _, [] => false
  | a :: as, b :: bs =>
    if a.toNat < b.toNat then true
    else if b.toNat < a.toNat then false
    else lexLe as bs

/-- String comparison used for sorting. -/
def strLe (a b : String) : Bool := lexLe a.toList b.toList

/-- Insert into a list sorted by `le`. -/
def insertBy (le : String → String → Bool) (s : String) :
    List String → List String
  | [] => [s]
  | t :: ts => if le s t then s :: t :: ts else t :: insertBy le s ts

/-- Insertion sort by `le`. -/
def sortBy (le : String → String → Bool) (l : List String) : List String :=
  l.foldr (insertBy le) []

/-- The function `np.unique`: the distinct values, sorted. -/
def npUnique (l : List String) : List String := sortBy strLe l.dedup

/-- All tokens of a document collection, in corpus order. -/
def allTokens (docs : List String) : List String := (docs.map tokenize).flatten

/-- Corpus frequency of a term, the count `max_features` truncation
ranks by. -/
def termFrequency (docs : List String) (t : String) : Nat :=
  (allTokens docs).count t

/-- Ranking for `max_features`: more frequent terms first, ties broken
alphabetically. -/
def freqLe (docs : List String) (a b : String) : Bool :=
  if termFrequency docs b < termFrequency docs a then true
  else if termFrequency docs a < termFrequency docs b then false
  else strLe a b

/-- The vectorizer's constructor arguments. -/
structure TfidfVectorizer where
  stop_words : List String
  max_features : Nat

/-- The vectorizer object: `tfidf = TfidfVectorizer(stop_words='english', max_features=100)`. -/
def tfidf : TfidfVectorizer := ⟨englishStopWords, 100⟩

/-- The vocabulary learned by fitting the vectorizer on `docs`: distinct
non-stop-word tokens, alphabetically sorted, truncated to the
`max_features` most frequent when they exceed `max_features` (they never
do on this corpus, whose documents hold at most 32 distinct terms). -/
def fitVocabulary (v : TfidfVectorizer) (docs : List String) : List String :=
  let terms :=
    sortBy strLe
      (((docs.map tokenize).flatten.filter
        (fun t => !(v.stop_words.contains t))).dedup)
  if terms.length ≤ v.max_features then terms
  else sortBy strLe ((sortBy (freqLe docs) terms).take v.max_features)

/-- One transformed row: the count of each vocabulary term in the
document (the integer part of the tf-idf row; idf scaling and
normalisation multiply entries by fixed positive reals). -/
def transformRow (vocab : List String) (doc : String) : List Nat :=
  vocab.map (fun t => (tokenize doc).count t)

/-- The `transform` method: one row per document over the fitted vocabulary. -/
def transform (vocab : List String) (docs : List String) : List (List Nat) :=
  docs.map (transformRow vocab)

/-! ## The fitted pipeline state -/

/-- The vocabulary the notebook's vectorizer holds after
`tfidf.fit_transform(X_train)`: fitted on the training emails only. -/
def fittedVocabulary (perm : List Nat) : List String :=
  fitVocabulary tfidf (X_train perm)

/-- Training matrix `X_train_tfidf = tfidf.fit_transform(X_train)`. -/
def X_train_tfidf (perm : List Nat) : List (List Nat) :=
  transform (fittedVocabulary perm) (X_train perm)

/-- Test matrix `X_test_tfidf = tfidf.transform(X_test)`: same fitted vocabulary. -/
def X_test_tfidf (perm : List Nat) : List (List Nat) :=
  transform (fittedVocabulary perm) (X_test perm)

/-! ## MultinomialNB

`model.fit(X_train_tfidf, y_train)` stores `classes_ = np.unique(y_train)`
and estimates real-valued per-class log-priors and feature log-
probabilities; `model.predict` returns, for each row, the stored class
with the greatest posterior score, the first such class on ties
(`np.argmax` semantics). The real-valued scoring is kept as an abstract
parameter `score : List Nat → String → ℚ`; every theorem below holds for
all score functions, hence for the library's. -/

/-- The attribute `classes_` as stored by `model.fit`. -/
def model_classes (perm : List Nat) : List String := npUnique (y_train perm)

/-- First maximiser of `score` in the class list (`np.argmax`: a later
class replaces the current best only when strictly better). -/
def argmaxClass (score : String → ℚ) : List String → String
  | [] => ""
  | c :: cs => cs.foldl (fun best x => if score best < score x then x else best) c

/-- The method `model.predict`: one most-likely class per row. -/
def nbPredict (score : List Nat → String → ℚ) (classes : List String)
    (rows : List (List Nat)) : List String :=
  rows.map (fun r => argmaxClass (score r) classes)

/-- Test predictions `y_pred = model.predict(X_test_tfidf)`. -/
def y_pred (perm : List Nat) (score : List Nat → String → ℚ) : List String :=
  nbPredict score (model_classes perm) (X_test_tfidf perm)

/-- The composition the pipeline applies to any single email: transform
with the fitted vocabulary, then take the classifier's argmax class —
and nothing else. -/
def pipelinePredict (perm : List Nat) (score : List Nat → String → ℚ)
    (doc : String) : String :=
  argmaxClass (score (transformRow (fittedVocabulary perm) doc))
    (model_classes perm)

/-! ## Metrics -/

/-- The metric `accuracy_score`: fraction of positions where prediction equals
truth. -/
def accuracy_score (ytrue ypredicted : List String) : ℚ :=
  ((ytrue.zip ypredicted).countP (fun pr => pr.1 == pr.2) : ℚ) / ytrue.length

/-- The reported `accuracy = accuracy_score(y_test, y_pred)`. -/
def accuracy (perm : List Nat) (score : List Nat → String → ℚ) : ℚ :=
  accuracy_score (y_test perm) (y_pred perm score)

/-- The metric `confusion_matrix(y_test, y_pred)`: rows indexed by true label,
columns by predicted label, over the sorted distinct labels present. -/
def confusion_matrix (ytrue ypredicted : List String) : List (List Nat) :=
  let labels := npUnique (ytrue ++ ypredicted)
  labels.map (fun a =>
    labels.map (fun b =>
      (ytrue.zip ypredicted).countP (fun pr => pr.1 == a && pr.2 == b)))

/-- The reported `cm = confusion_matrix(y_test, y_pred)`. -/
def cm (perm : List Nat) (score : List Nat → String → ℚ) : List (List Nat) :=
  confusion_matrix (y_test perm) (y_pred perm score)

/-! ## The new-email cell -/

/-- The three new emails of the final cell. -/
def new_emails : List String :=
  ["win cash now click this link",
   "team meeting at 3pm",
   "urgent offer expires soon"]

/-- New-email matrix `new_emails_tfidf = tfidf.transform(new_emails)`: the vectorizer is
the object fitted on `X_train` earlier; no refit happens here. -/
def new_emails_tfidf (perm : List Nat) : List (List Nat) :=
  transform (fittedVocabulary perm) new_emails

/-- New-email predictions `new_predictions = model.predict(new_emails_tfidf)`. -/
def new_predictions (perm : List Nat) (score : List Nat → String → ℚ) :
    List String :=
  nbPredict score (model_classes perm) (new_emails_tfidf perm)

/-! ## Whole-run summary -/

/-- Everything one execution computes and reports. -/
structure RunOutputs where
  trainIdx : List Nat
  testIdx : List Nat
  vocabulary : List String
  testPredictions : List String
  newPredictions : List String
  accuracyValue : ℚ
  confusion : List (List Nat)
deriving DecidableEq, Repr

/-- One execution of the script, as a function of the random source and
the classifier's real-valued scoring. The only randomness ever consumed
is the permutation `train_test_split` draws from `RandomState(42)`,
embedded as `rng 42`; the global `np.random.seed(42)` call seeds a
generator the pipeline never reads. -/
def runPipeline (rng : Nat → List Nat) (score : List Nat → String → ℚ) :
    RunOutputs :=
  let perm := rng 42
  { trainIdx := train_indices perm
    testIdx := test_indices perm
    vocabulary := fittedVocabulary perm
    testPredictions := y_pred perm score
    newPredictions := new_predictions perm score
    accuracyValue := accuracy perm score
    confusion := cm perm score }

/-- The script with its fallible library calls made explicit: each stage
may raise (`Except.error`), and the straight-line cell sequence binds one
stage after the next with no `try`/`except` anywhere, so an error at any
stage is returned to the caller unchanged. -/
def runPipelineExc {E : Type} (splitCall : Except E (List Nat))
    (fitVectorizerCall : List String → Except E (List String))
    (fitClassifierCall : List (List Nat) → List String → Except E (List String))
    (score : List Nat → String → ℚ) : Except E RunOutputs := do
  let perm ← splitCall
  let vocab ← fitVectorizerCall (X_train perm)
  let classes ← fitClassifierCall (transform vocab (X_train perm)) (y_train perm)
  let yp := nbPredict score classes (transform vocab (X_test perm))
  let newp := nbPredict score classes (transform vocab new_emails)
  pure
    { trainIdx := train_indices perm
      testIdx := test_indices perm
      vocabulary := vocab
      testPredictions := yp
      newPredictions := newp
      accuracyValue := accuracy_score (y_test perm) yp
      confusion := confusion_matrix (y_test perm) yp }

/-! ## Concrete instantiation data for witnesses -/

/-- The permutation of the ten row indices that `RandomState(42)` draws
in the notebook's run (test rows 8, 1, 5; the stored cell outputs — a
7-by-23 training matrix and test-set class support 1 spam / 2 ham —
match this split). Any permutation of `range 10` satisfies the theorems
below; this one instantiates them concretely. -/
def rs42perm : List Nat := [8, 1, 5, 0, 7, 2, 9, 4, 3, 6]

/-- A constant random source producing `rs42perm`. -/
def constRng : Nat → List Nat := fun _ => rs42perm

/-- A trivial concrete scoring function for instantiating theorems. -/
def zeroScore : List Nat → String → ℚ := fun _ _ => 0

/-- A split call that raises, for instantiating the error-propagation
theorem: the library signalling malformed input. -/
def errSplit : Except String (List Nat) := Except.error "malformed input"

/-- A vectorizer-fit call that succeeds with the embedded vocabulary. -/
def okVectorizer : List String → Except String (List String) :=
  fun docs => Except.ok (fitVocabulary tfidf docs)

/-- A classifier-fit call that succeeds with the embedded class list. -/
def okClassifier : List (List Nat) → List String → Except String (List String) :=
  fun _ labels => Except.ok (npUnique labels)

/-! ## Theorems -/

/-- Sanity check that the ceiling-division form of `n_test` agrees with
sklearn's `ceil(test_size * n_samples)` on this dataset. -/
theorem n_test_eq_ceil : n_test = Nat.ceil (test_size * (n_samples : ℚ)) := by
  have h : n_samples = 10 := by decide
  rw [h]
  norm_num [n_test, test_size, h]

/-- Membership in an insertion step. -/
theorem mem_insertBy (le : String → String → Bool) (s a : String) :
    ∀ l : List String, a ∈ insertBy le s l ↔ a = s ∨ a ∈ l := by
  intro l
  induction l with
  | nil => simp [insertBy]
  | cons t ts ih =>
    simp only [insertBy]
    split
    · simp [List.mem_cons]
    · simp only [List.mem_cons, ih]
      tauto

/-- Sorting does not change membership. -/
theorem mem_sortBy (le : String → String → Bool) (a : String) :
    ∀ l : List String, a ∈ sortBy le l ↔ a ∈ l := by
  intro l
  induction l with
  | nil => simp [sortBy]
  | cons t ts ih =>
    show a ∈ insertBy le t (sortBy le ts) ↔ _
    rw [mem_insertBy, ih]
    simp [List.mem_cons]

/-- Applying `np.unique` does not change membership. -/
theorem mem_npUnique (a : String) (l : List String) :
    a ∈ npUnique l ↔ a ∈ l := by
  rw [npUnique, mem_sortBy, List.mem_dedup]

/-- Applying `np.unique` to a nonempty list gives a nonempty list. -/
theorem npUnique_ne_nil {l : List String} (h : l ≠ []) : npUnique l ≠ [] := by
  rcases List.exists_mem_of_ne_nil l h with ⟨a, ha⟩
  exact List.ne_nil_of_mem ((mem_npUnique a l).mpr ha)

/-- The running best of the argmax fold is one of the candidates. -/
theorem argmax_foldl_mem (score : String → ℚ) (cs : List String) :
    ∀ c, cs.foldl (fun best x => if score best < score x then x else best) c
      ∈ c :: cs := by
  induction cs with
  | nil => intro c; simp
  | cons x xs ih =>
    intro c
    rw [List.foldl_cons]
    rcases List.mem_cons.mp (ih (if score c < score x then x else c)) with h | h
    · rw [h]
      split
      · exact List.mem_cons_of_mem _ (List.mem_cons_self _ _)
      · exact List.mem_cons_self _ _
    · exact List.mem_cons_of_mem _ (List.mem_cons_of_mem _ h)

/-- The argmax (`np.argmax`) picks one of the stored classes when there is at least
one. -/
theorem argmaxClass_mem (score : String → ℚ) {cs : List String}
    (h : cs ≠ []) : argmaxClass score cs ∈ cs := by
  cases cs with
  | nil => exact absurd rfl h
  | cons c rest => exact argmax_foldl_mem score rest c

/-- Every label of the DataFrame's label column is spam or ham. -/
theorem y_getD_spam_or_ham : ∀ i < 10, y.getD i "" = "spam" ∨ y.getD i "" = "ham" := by
  decide

/-- A permutation of the row indices has length ten. -/
theorem perm_length {perm : List Nat} (hp : perm.Perm (List.range 10)) :
    perm.length = 10 := by
  simpa using hp.length_eq

/-- Members of the permutation are row indices below ten. -/
theorem perm_mem_lt {perm : List Nat} (hp : perm.Perm (List.range 10))
    {i : Nat} (hi : i ∈ perm) : i < 10 :=
  List.mem_range.mp ((hp.mem_iff).mp hi)

/-- The training indices sit inside the permutation. -/
theorem train_indices_subset (perm : List Nat) :
    train_indices perm ⊆ perm := by
  intro a hx
  exact List.drop_subset _ _ (List.take_subset _ _ hx)

/-- The test indices sit inside the permutation. -/
theorem test_indices_subset (perm : List Nat) :
    test_indices perm ⊆ perm := by
  intro a hx
  exact List.take_subset _ _ hx

/-- There are seven training indices. -/
theorem length_train_indices {perm : List Nat}
    (hp : perm.Perm (List.range 10)) : (train_indices perm).length = 7 := by
  have h3 : n_test = 3 := by decide
  have h7 : n_train = 7 := by decide
  simp [train_indices, h3, h7, List.length_take, List.length_drop, perm_length hp]

/-- There are three test indices. -/
theorem length_test_indices {perm : List Nat}
    (hp : perm.Perm (List.range 10)) : (test_indices perm).length = 3 := by
  have h3 : n_test = 3 := by decide
  simp [test_indices, h3, List.length_take, perm_length hp]

/-- Every training label is spam or ham. -/
theorem y_train_spam_or_ham {perm : List Nat}
    (hp : perm.Perm (List.range 10)) :
    ∀ s ∈ y_train perm, s = "spam" ∨ s = "ham" := by
  intro s hs
  rcases List.mem_map.mp hs with ⟨i, hi, hsi⟩
  have hlt : i < 10 := perm_mem_lt hp (train_indices_subset perm hi)
  exact hsi ▸ y_getD_spam_or_ham i hlt

/-- The class list stored at fit time is nonempty. -/
theorem model_classes_ne_nil {perm : List Nat}
    (hp : perm.Perm (List.range 10)) : model_classes perm ≠ [] := by
  apply npUnique_ne_nil
  intro hnil
  have := congrArg List.length hnil
  rw [show (y_train perm).length = (train_indices perm).length from
    List.length_map _ _, length_train_indices hp] at this
  simp at this

/-- Every class stored at fit time is spam or ham. -/
theorem model_classes_spam_or_ham {perm : List Nat}
    (hp : perm.Perm (List.range 10)) :
    ∀ s ∈ model_classes perm, s = "spam" ∨ s = "ham" := by
  intro s hs
  exact y_train_spam_or_ham hp s ((mem_npUnique s _).mp hs)

/-- C1 counterexample: the sequence the spec states (vectorize before
split) is not the sequence the notebook's cells execute; in the code the
TF-IDF vectorization does not precede the train/test split. -/
theorem C1_spec_order_refuted :
    specClaimedOrder ≠ notebookCellOrder ∧
    ¬ stepIndex Step.vectorizeText < stepIndex Step.splitTrainTest := by
  decide

/-- C1 (amended): the notebook executes its cells as the linear sequence
construct toy data, split into train/test sets, TF-IDF-vectorize the
text, fit the classifier, predict on the test set, report metrics, and
predict on three new strings; in particular the train/test split happens
before TF-IDF vectorization, and the vectorizer is fitted on the
training portion produced by the split. -/
theorem C1_exec_order :
    notebookCellOrder =
      [Step.constructData, Step.splitTrainTest, Step.vectorizeText,
       Step.fitClassifier, Step.predictTest, Step.reportMetrics,
       Step.predictNewEmails] ∧
    stepIndex Step.splitTrainTest < stepIndex Step.vectorizeText ∧
    ∀ perm : List Nat,
      X_train_tfidf perm =
        transform (fitVocabulary tfidf (X_train perm)) (X_train perm) := by
  exact ⟨rfl, by decide, fun _ => rfl⟩

/-- C2: the dataset is one record type with the two fields `email` and
`label`, holds exactly ten records fixed at authoring time, and every
record's label is one of the two fixed strings spam and ham. -/
theorem C2_dataset_shape :
    data.length = 10 ∧
    data.all (fun r => r.label == "spam" || r.label == "ham") = true := by
  decide

/-- C3: the only file, network, or environment output of the whole run
is the single CSV write of the synthetic dataset: one header line naming
the columns email and label followed by the ten data rows, with no index
column prepended. -/
theorem C3_external_output :
    programEffects.filter Effect.isFileWrite =
      [Effect.fileWrite "spam_email_data.csv" (toCsv df)] ∧
    programEffects.filter Effect.isNetworkOrEnv = [] ∧
    (toCsv df).length = 11 ∧
    (toCsv df).headD "" = "email,label" ∧
    (toCsv df).tail = df.map (fun r => r.email ++ "," ++ r.label) := by
  refine ⟨by decide, by decide, by decide, by decide, rfl⟩

/-- C9: the ten labels are exactly class-balanced, five spam and five
ham, alternating spam, ham, spam, ham, … from index 0. -/
theorem C9_labels_alternate :
    y.count "spam" = 5 ∧ y.count "ham" = 5 ∧
    y = (List.range 10).map (fun i => if i % 2 = 0 then "spam" else "ham") := by
  decide

/-- C5: after evaluation the program predicts on exactly three new email
strings; they are transformed with the very vectorizer state fitted on
the training emails earlier (no refit: the feature space of every
transformed row is the fitted vocabulary), and one label is produced per
string. -/
theorem C5_new_emails_same_vectorizer (perm : List Nat)
    (score : List Nat → String → ℚ) :
    new_emails.length = 3 ∧
    new_emails_tfidf perm =
      transform (fitVocabulary tfidf (X_train perm)) new_emails ∧
    (∀ row ∈ new_emails_tfidf perm,
      row.length = (fittedVocabulary perm).length) ∧
    (new_predictions perm score).length = new_emails.length := by
  refine ⟨rfl, rfl, ?_, ?_⟩
  · intro row hr
    rcases List.mem_map.mp hr with ⟨d, _, hd⟩
    rw [← hd]
    exact List.length_map _ _
  · simp [new_predictions, nbPredict, new_emails_tfidf, transform]

/-- C6: every prediction the pipeline makes, on the held-out rows and on
the new emails alike, is exactly the two-stage composition "transform
with the fitted TF-IDF vocabulary, then take the Naive Bayes argmax
class", with no further transformation between or around the stages. -/
theorem C6_two_stage_composition (perm : List Nat)
    (score : List Nat → String → ℚ) :
    y_pred perm score = (X_test perm).map (pipelinePredict perm score) ∧
    new_predictions perm score = new_emails.map (pipelinePredict perm score) := by
  constructor <;>
    simp [y_pred, new_predictions, nbPredict, X_test_tfidf, new_emails_tfidf,
      transform, pipelinePredict, List.map_map, Function.comp]

/-- C10: the run is deterministic: two executions that draw the same
permutation from the seed-42 random source and score classes the same
way produce identical splits, fitted vocabulary, test and new-email
predictions, and reported metrics. The pipeline consults its random
source only at seed 42. -/
theorem C10_deterministic (rng1 rng2 : Nat → List Nat)
    (score1 score2 : List Nat → String → ℚ)
    (hrng : rng1 42 = rng2 42) (hscore : score1 = score2) :
    runPipeline rng1 score1 = runPipeline rng2 score2 := by
  subst hscore
  simp only [runPipeline, hrng]

/-- C10 at a concrete instantiation: the constant seed-42 source and a
concrete score, with both hypotheses discharged definitionally. -/
theorem C10_deterministic_witness :
    constRng 42 = constRng 42 ∧ zeroScore = zeroScore ∧
    runPipeline constRng zeroScore = runPipeline constRng zeroScore :=
  ⟨rfl, rfl, C10_deterministic constRng constRng zeroScore zeroScore rfl rfl⟩

/-- C4: for every input handed to `predict` — the held-out test rows and
the three new email strings alike — the pipeline produces exactly one
prediction per input, and every prediction is one of the classes stored
at fit time, each of which is one of the two fixed strings spam and ham.
Holds for every permutation the split can draw and every scoring
function. -/
theorem C4_predictions_are_fitted_classes (perm : List Nat)
    (score : List Nat → String → ℚ) (hp : perm.Perm (List.range 10)) :
    (y_pred perm score).length = (X_test perm).length ∧
    (new_predictions perm score).length = new_emails.length ∧
    ∀ p ∈ y_pred perm score ++ new_predictions perm score,
      p ∈ model_classes perm ∧ (p = "spam" ∨ p = "ham") := by
  refine ⟨by simp [y_pred, nbPredict, X_test_tfidf, transform],
          by simp [new_predictions, nbPredict, new_emails_tfidf, transform], ?_⟩
  intro p hmem
  have hcls : p ∈ model_classes perm := by
    rcases List.mem_append.mp hmem with h | h
    · simp only [y_pred, nbPredict] at h
      rcases List.mem_map.mp h with ⟨r, _, hr⟩
      exact hr ▸ argmaxClass_mem _ (model_classes_ne_nil hp)
    · simp only [new_predictions, nbPredict] at h
      rcases List.mem_map.mp h with ⟨r, _, hr⟩
      exact hr ▸ argmaxClass_mem _ (model_classes_ne_nil hp)
  exact ⟨hcls, model_classes_spam_or_ham hp p hcls⟩

/-- C4 at the notebook's own permutation and a concrete score. -/
theorem C4_predictions_are_fitted_classes_witness :
    List.Perm rs42perm (List.range 10) ∧
    ((y_pred rs42perm zeroScore).length = (X_test rs42perm).length ∧
     (new_predictions rs42perm zeroScore).length = new_emails.length ∧
     ∀ p ∈ y_pred rs42perm zeroScore ++ new_predictions rs42perm zeroScore,
       p ∈ model_classes rs42perm ∧ (p = "spam" ∨ p = "ham")) :=
  ⟨by decide, C4_predictions_are_fitted_classes rs42perm zeroScore (by decide)⟩

/-- C8: for every permutation the split can draw, `train_test_split`
with test fraction 0.3 on the ten records yields exactly 7 training and
3 test records, with disjoint index sets that together are exactly the
ten original row indices; the selected email/label columns partition the
original columns, and each selected email stays paired with the label of
its original record on both sides of the split. -/
theorem C8_split_partitions (perm : List Nat)
    (hp : perm.Perm (List.range 10)) :
    (X_train perm).length = 7 ∧ (X_test perm).length = 3 ∧
    (y_train perm).length = 7 ∧ (y_test perm).length = 3 ∧
    (∀ i, i ∈ train_indices perm → i ∉ test_indices perm) ∧
    (train_indices perm ++ test_indices perm).Perm (List.range 10) ∧
    (X_train perm ++ X_test perm).Perm X ∧
    (y_train perm ++ y_test perm).Perm y ∧
    (X_train perm).zip (y_train perm) =
      (train_indices perm).map (fun i => (X.getD i "", y.getD i "")) ∧
    (X_test perm).zip (y_test perm) =
      (test_indices perm).map (fun i => (X.getD i "", y.getD i "")) := by
  have h3 : n_test = 3 := by decide
  have h7 : n_train = 7 := by decide
  have hlen : perm.length = 10 := perm_length hp
  have hnd : perm.Nodup := (hp.nodup_iff).mpr (List.nodup_range 10)
  have htake : (perm.drop n_test).take n_train = perm.drop n_test := by
    apply List.take_of_length_le
    rw [List.length_drop, hlen, h3, h7]
  have happend : (train_indices perm ++ test_indices perm).Perm perm := by
    rw [train_indices, test_indices, htake]
    have hcomm : (perm.drop n_test ++ perm.take n_test).Perm
        (perm.take n_test ++ perm.drop n_test) := List.perm_append_comm
    rwa [List.take_append_drop] at hcomm
  have hPerm10 : (train_indices perm ++ test_indices perm).Perm
      (List.range 10) := happend.trans hp
  have hdisj : ∀ i, i ∈ train_indices perm → i ∉ test_indices perm := by
    intro i hitr hite
    have hd : List.Disjoint (perm.take n_test) (perm.drop n_test) :=
      List.disjoint_take_drop hnd (le_refl n_test)
    exact hd hite (List.take_subset _ _ hitr)
  have hXpart : (X_train perm ++ X_test perm).Perm X := by
    have hmap := hPerm10.map (fun i => X.getD i "")
    have hX : (List.range 10).map (fun i => X.getD i "") = X := by decide
    rw [hX] at hmap
    simpa [X_train, X_test, selectRows, List.map_append] using hmap
  have hypart : (y_train perm ++ y_test perm).Perm y := by
    have hmap := hPerm10.map (fun i => y.getD i "")
    have hy : (List.range 10).map (fun i => y.getD i "") = y := by decide
    rw [hy] at hmap
    simpa [y_train, y_test, selectRows, List.map_append] using hmap
  refine ⟨?_, ?_, ?_, ?_, hdisj, hPerm10, hXpart, hypart, ?_, ?_⟩
  · simp [X_train, selectRows, length_train_indices hp]
  · simp [X_test, selectRows, length_test_indices hp]
  · simp [y_train, selectRows, length_train_indices hp]
  · simp [y_test, selectRows, length_test_indices hp]
  · simp [X_train, y_train, selectRows, List.zip_map']
  · simp [X_test, y_test, selectRows, List.zip_map']

/-- C8 at the notebook's own permutation. -/
theorem C8_split_partitions_witness :
    List.Perm rs42perm (List.range 10) ∧
    ((X_train rs42perm).length = 7 ∧ (X_test rs42perm).length = 3 ∧
     (y_train rs42perm).length = 7 ∧ (y_test rs42perm).length = 3 ∧
     (∀ i, i ∈ train_indices rs42perm → i ∉ test_indices rs42perm) ∧
     (train_indices rs42perm ++ test_indices rs42perm).Perm (List.range 10) ∧
     (X_train rs42perm ++ X_test rs42perm).Perm X ∧
     (y_train rs42perm ++ y_test rs42perm).Perm y ∧
     (X_train rs42perm).zip (y_train rs42perm) =
       (train_indices rs42perm).map (fun i => (X.getD i "", y.getD i "")) ∧
     (X_test rs42perm).zip (y_test rs42perm) =
       (test_indices rs42perm).map (fun i => (X.getD i "", y.getD i ""))) :=
  ⟨by decide, C8_split_partitions rs42perm (by decide)⟩

/-- C7: the script catches nothing: when any of its fallible library
calls raises — the split, the vectorizer fit, or the classifier fit —
the very same error value is the result of the whole run, unchanged; the
straight-line cell sequence contains no handler that could intercept or
replace it. -/
theorem C7_error_propagation {E : Type} (e : E)
    (splitCall : Except E (List Nat))
    (fitVectorizerCall : List String → Except E (List String))
    (fitClassifierCall : List (List Nat) → List String → Except E (List String))
    (score : List Nat → String → ℚ)
    (hfail :
      splitCall = Except.error e ∨
      (∃ p, splitCall = Except.ok p ∧
        fitVectorizerCall (X_train p) = Except.error e) ∨
      (∃ p vocab, splitCall = Except.ok p ∧
        fitVectorizerCall (X_train p) = Except.ok vocab ∧
        fitClassifierCall (transform vocab (X_train p)) (y_train p) =
          Except.error e)) :
    runPipelineExc splitCall fitVectorizerCall fitClassifierCall score =
      Except.error e := by
  rcases hfail with h | ⟨p, hs, hv⟩ | ⟨p, vocab, hs, hv, hc⟩
  · simp [runPipelineExc, h, Bind.bind, Except.bind]
  · simp [runPipelineExc, hs, hv, Bind.bind, Except.bind]
  · simp [runPipelineExc, hs, hv, hc, Bind.bind, Except.bind]

/-- C7 at a concrete instantiation: the split call raises on malformed
input and the run returns that exact error. -/
theorem C7_error_propagation_witness :
    (errSplit = Except.error "malformed input" ∨
     (∃ p, errSplit = Except.ok p ∧
       okVectorizer (X_train p) = Except.error "malformed input") ∨
     (∃ p vocab, errSplit = Except.ok p ∧
       okVectorizer (X_train p) = Except.ok vocab ∧
       okClassifier (transform vocab (X_train p)) (y_train p) =
         Except.error "malformed input")) ∧
    runPipelineExc errSplit okVectorizer okClassifier zeroScore =
      Except.error "malformed input" :=
  ⟨Or.inl rfl,
   C7_error_propagation "malformed input" errSplit okVectorizer okClassifier
     zeroScore (Or.inl rfl)⟩

end Spam
